import Mathlib

set_option maxRecDepth 100000

/-! Shallow embedding of the frontend-pattern-enforcer scripts
(`analyze_project.py`, `check_compliance.py`, `generate_report.py`).
Python strings are modelled as Lean `String` (ASCII behaviour of the
`str` methods involved), Python lists as `List`, Python sets as
duplicate-free `List String` with membership-checked insertion, and the
file system as an explicit map from glob patterns (or paths) to file
contents.  The regular expressions used by the scripts are embedded as
deterministic scanners that reproduce Python `re.finditer`/`re.findall`
semantics (leftmost, non-overlapping, with the exact backtracking
behaviour these particular patterns can exhibit). -/

/-! ## Python string primitives -/

/-- Python `needle in hay` (contiguous substring test) over char lists. -/
def subListIn (needle : List Char) : List Char → Bool
  | [] => needle.isEmpty
  | c :: t => needle.isPrefixOf (c :: t) || subListIn needle t

/-- Python `needle in hay` on strings. -/
def pyIn (needle hay : String) : Bool := subListIn needle.data hay.data

/-- Python `\s` whitespace class: space, tab, newline, carriage return,
vertical tab, form feed. -/
def pySpace (c : Char) : Bool :=
  c == ' ' || c == '\t' || c == '\n' || c == '\r' || c == Char.ofNat 11 || c == Char.ofNat 12

/-- Python regex `\w` (ASCII scope): letters, digits, underscore. -/
def pyWordChar (c : Char) : Bool := c.isAlphanum || c == '_'

/-- Hexadecimal digit, as in `[0-9a-fA-F]`. -/
def pyHexDigit (c : Char) : Bool :=
  c.isDigit || (('a' ≤ c) && (c ≤ 'f')) || (('A' ≤ c) && (c ≤ 'F'))

/-- Build a `String` back from a char list. -/
def strOf (l : List Char) : String := ⟨l⟩

/-- Python `str.strip()` (ASCII whitespace scope). -/
def pyStrip (s : String) : String :=
  strOf (((s.data.dropWhile pySpace).reverse.dropWhile pySpace).reverse)

/-- Python `str.lower()` (ASCII behaviour). -/
def pyLower (s : String) : String := strOf (s.data.map Char.toLower)

/-- Python `s.startswith(p)`. -/
def pyStartsWith (s p : String) : Bool := p.data.isPrefixOf s.data

/-- Python single-character `str.isupper()` on the first character of a
string; `false` on the empty string (mirrors `s[0].isupper() if s else False`). -/
def strFirstIsUpper (s : String) : Bool :=
  match s.data with
  | [] => false
  | c :: _ => c.isUpper

/-- Python single-character `str.islower()` on the first character of a
string; `false` on the empty string. -/
def strFirstIsLower (s : String) : Bool :=
  match s.data with
  | [] => false
  | c :: _ => c.isLower

/-- Python `str.islower()` on a whole string: at least one cased (here:
alphabetic, ASCII scope) character, and no uppercase character.  Note the
empty string yields `false`. -/
def pyStrIsLower (s : String) : Bool :=
  s.data.any Char.isAlpha && s.data.all (fun c => !c.isUpper)

/-- Python `s[1:]`. -/
def strTail (s : String) : String := strOf (s.data.drop 1)

/-- Python `str.title()` for the ASCII scope used on folder-role labels:
a cased character following a non-cased one is uppercased, other cased
characters are lowercased. -/
def pyTitleAux : Bool → List Char → List Char
  | _, [] => []
  | prevCased, c :: t => (if prevCased then c.toLower else c.toUpper) :: pyTitleAux c.isAlpha t

/-- Python `str.title()`. -/
def pyTitle (s : String) : String := strOf (pyTitleAux false s.data)

/-- The part of a string after its last colon (Python `s.split(':')[-1]`,
only used under an `':' in s` guard). -/
def lastColonSeg (s : String) : String :=
  strOf ((s.data.reverse.takeWhile (fun c => !(c == ':'))).reverse)

/-- An ASCII apostrophe, written by code point so it can appear inside
generated message strings. -/
def apos : String := strOf [Char.ofNat 39]

/-! ## pathlib.Path name/stem/suffix on POSIX-style path strings -/

/-- `Path(p).name`: the final path component. -/
def pathName (p : String) : String :=
  strOf ((p.data.reverse.takeWhile (fun c => !(c == '/'))).reverse)

/-- `Path(p).suffix`: the final extension with its dot, empty when the last
dot is the first or last character of the name. -/
def pathSuffix (p : String) : String :=
  let n := (pathName p).data
  let afterRev := n.reverse.takeWhile (fun c => !(c == '.'))
  if n.contains '.' then
    if 0 < n.length - afterRev.length - 1 && 0 < afterRev.length then
      strOf ('.' :: afterRev.reverse)
    else ""
  else ""

/-- `Path(p).stem`: the final component without its suffix. -/
def pathStem (p : String) : String :=
  let n := (pathName p).data
  strOf (n.take (n.length - (pathSuffix p).data.length))

/-! ## Regex scanners

Each Python regex used by the scripts is embedded as a single-position
matcher `List Char → Option (result × List Char)` (result plus the
remainder after the full match), iterated by a leftmost non-overlapping
driver mirroring `re.finditer`/`re.findall`. -/

/-- If `lit` is a literal prefix of `s`, drop it. -/
def dropLit (lit : String) (s : List Char) : Option (List Char) :=
  if lit.data.isPrefixOf s then some (s.drop lit.data.length) else none

/-- Ordered alternation of literals, as in `(?:a|b|c)`: first alternative
that is a prefix wins.  (For every alternation appearing in the scripts,
no later alternative can succeed where an earlier prefix-matching one
fails its following context, so this is faithful to the backtracking
engine.) -/
def firstLit (lits : List String) (s : List Char) : Option (String × List Char) :=
  match lits with
  | [] => none
  | l :: ls =>
    match dropLit l s with
    | some r => some (l, r)
    | none => firstLit ls s

/-- The `\s*([^;]+);` tail shared by several patterns: returns
(consumed characters, group, remainder).  When everything between the
greedy `\s*` and the semicolon is whitespace, the engine backtracks `\s*`
by one character so that `[^;]+` can still match once. -/
def semiTail (s : List Char) : Option (List Char × List Char × List Char) :=
  let ws := s.takeWhile pySpace
  let r1 := s.dropWhile pySpace
  let val := r1.takeWhile (fun c => !(c == ';'))
  let r2 := r1.dropWhile (fun c => !(c == ';'))
  match val, r2 with
  | _ :: _, ';' :: rest => some (ws ++ val ++ [';'], val, rest)
  | [], ';' :: rest =>
    match ws with
    | [] => none
    | _ :: _ => some (ws ++ [';'], [ws.getLastD ' '], rest)
  | _, _ => none

/-- One-position matcher for `--[\w-]+:\s*([^;]+);` returning
((full match, group), remainder). -/
def matchCssVar (s : List Char) : Option ((List Char × List Char) × List Char) :=
  match dropLit "--" s with
  | none => none
  | some r1 =>
    let name := r1.takeWhile (fun c => pyWordChar c || c == '-')
    let r2 := r1.dropWhile (fun c => pyWordChar c || c == '-')
    match name, r2 with
    | _ :: _, ':' :: r3 =>
      match semiTail r3 with
      | some (consumed, g, rem) => some ((('-' :: '-' :: name) ++ (':' :: consumed), g), rem)
      | none => none
    | _, _ => none

/-- Matcher for the hex alternative `#[0-9a-fA-F]{3,8}` (greedy up to 8). -/
def matchHex (s : List Char) : Option (List Char × List Char) :=
  match s with
  | '#' :: r =>
    let ds := r.takeWhile pyHexDigit
    if ds.length < 3 then none
    else some ('#' :: ds.take 8, r.drop (ds.take 8).length)
  | _ => none

/-- Matcher for a function-call alternative `name a? \( [^)]+ \)`
(`optA` enables the optional `a`, as in `rgba?`). -/
def matchCall (fname : String) (optA : Bool) (s : List Char) : Option (List Char × List Char) :=
  match dropLit fname s with
  | none => none
  | some r1 =>
    let step : List Char × List Char :=
      if optA then
        match r1 with
        | 'a' :: t => (['a'], t)
        | _ => ([], r1)
      else ([], r1)
    match step.2 with
    | '(' :: r3 =>
      let inner := r3.takeWhile (fun c => !(c == ')'))
      let r4 := r3.dropWhile (fun c => !(c == ')'))
      match inner, r4 with
      | _ :: _, ')' :: rest => some (fname.data ++ step.1 ++ '(' :: (inner ++ [')']), rest)
      | _, _ => none
    | _ => none

/-- Value alternation of `analyze_project.py`'s color pattern:
`#hex | rgba?(..) | hsl(..)`. -/
def colorValueFull (s : List Char) : Option (List Char × List Char) :=
  match matchHex s with
  | some r => some r
  | none =>
    match matchCall "rgb" true s with
    | some r => some r
    | none => matchCall "hsl" false s

/-- Value alternation of `check_compliance.py`'s color pattern:
`#hex | rgba?(..)` (no `hsl`). -/
def colorValueCheck (s : List Char) : Option (List Char × List Char) :=
  match matchHex s with
  | some r => some r
  | none => matchCall "rgb" true s

/-- One-position matcher `(?:props):\s*value` returning (group, remainder);
the pattern ends with the group, so the remainder starts right after it. -/
def matchPropValue (props : List String) (valueM : List Char → Option (List Char × List Char))
    (s : List Char) : Option (List Char × List Char) :=
  match firstLit props s with
  | none => none
  | some (_, r1) =>
    match r1 with
    | ':' :: r2 =>
      let r3 := r2.dropWhile pySpace
      valueM r3
    | _ => none

/-- One-position matcher `(?:props):\s*([^;]+);` returning (group, remainder). -/
def matchSemiPattern (props : List String) (s : List Char) : Option (List Char × List Char) :=
  match firstLit props s with
  | none => none
  | some (_, r1) =>
    match r1 with
    | ':' :: r2 =>
      match semiTail r2 with
      | some (_, g, rem) => some (g, rem)
      | none => none
    | _ => none

/-- One-position matcher for `border-radius:\s*(\d+px)`. -/
def matchRadiusPx (s : List Char) : Option (List Char × List Char) :=
  match dropLit "border-radius" s with
  | none => none
  | some r1 =>
    match r1 with
    | ':' :: r2 =>
      let r3 := r2.dropWhile pySpace
      let ds := r3.takeWhile Char.isDigit
      match ds, dropLit "px" (r3.dropWhile Char.isDigit) with
      | _ :: _, some rem => some (ds ++ ['p', 'x'], rem)
      | _, _ => none
    | _ => none

/-- The `from\s+['"]([^'"]+)['"]` tail of the import pattern. -/
def matchImportTail (s : List Char) : Option (List Char × List Char) :=
  match dropLit "from" s with
  | none => none
  | some r1 =>
    let ws := r1.takeWhile pySpace
    let r2 := r1.dropWhile pySpace
    match ws, r2 with
    | _ :: _, q :: r3 =>
      if q == Char.ofNat 39 || q == '"' then
        let g := r3.takeWhile (fun c => !(c == Char.ofNat 39 || c == '"'))
        let r4 := r3.dropWhile (fun c => !(c == Char.ofNat 39 || c == '"'))
        match g, r4 with
        | _ :: _, _ :: rest => some (g, rest)
        | _, _ => none
      else none
    | _, _ => none

/-- The lazy `.*?` between `import\s+` and `from...`: expand minimally,
never across a newline (`.` does not match `\n`). -/
def lazyScanImport : Nat → List Char → Option (List Char × List Char)
  | 0, _ => none
  | fuel + 1, s =>
    match matchImportTail s with
    | some r => some r
    | none =>
      match s with
      | [] => none
      | c :: t => if c == '\n' then none else lazyScanImport fuel t

/-- One-position matcher for `import\s+.*?from\s+['"]([^'"]+)['"]`.
`\s+` is taken greedily; a shorter `\s+` can never rescue a failed match
because the surrendered characters are whitespace (never the `f` of
`from`) and can only add an earlier newline barrier for `.*?`. -/
def matchImport (s : List Char) : Option (List Char × List Char) :=
  match dropLit "import" s with
  | none => none
  | some r1 =>
    let ws := r1.takeWhile pySpace
    let r2 := r1.dropWhile pySpace
    match ws with
    | [] => none
    | _ :: _ => lazyScanImport (r2.length + 1) r2

/-- `re.finditer` driver: at each position try the matcher; on success
emit the result and resume after the match, otherwise advance one
character.  Every matcher above consumes at least one character, so fuel
initialised to the string length is never the limiting factor. -/
def scanAux {α : Type} (m : List Char → Option (α × List Char)) : Nat → List Char → List α
  | 0, _ => []
  | _ + 1, [] => []
  | fuel + 1, c :: rest =>
    match m (c :: rest) with
    | some (a, rem) => a :: scanAux m fuel rem
    | none => scanAux m fuel rest

/-- Run a one-position matcher over a whole string, `re.finditer`-style. -/
def scanAll {α : Type} (m : List Char → Option (α × List Char)) (content : String) : List α :=
  scanAux m content.data.length content.data

/-- `re.finditer(r"--[\w-]+:\s*([^;]+);", content)` as
(full match, group 1) pairs. -/
def findCssVars (content : String) : List (String × String) :=
  scanAll (fun s =>
    match matchCssVar s with
    | some ((full, g), rem) => some ((strOf full, strOf g), rem)
    | none => none) content

/-- `analyze_project.py`'s color pattern findall (group 1 values). -/
def findColorsFull (content : String) : List String :=
  scanAll (fun s =>
    match matchPropValue ["color", "background", "bg", "border-color", "fill", "stroke"]
        colorValueFull s with
    | some (g, rem) => some (strOf g, rem)
    | none => none) content

/-- `(?:box-shadow|shadow):\s*([^;]+);` findall. -/
def findShadowsFull (content : String) : List String :=
  scanAll (fun s =>
    match matchSemiPattern ["box-shadow", "shadow"] s with
    | some (g, rem) => some (strOf g, rem)
    | none => none) content

/-- `(?:border-radius|rounded):\s*([^;]+);` findall. -/
def findRadiiFull (content : String) : List String :=
  scanAll (fun s =>
    match matchSemiPattern ["border-radius", "rounded"] s with
    | some (g, rem) => some (strOf g, rem)
    | none => none) content

/-- `(?:padding|margin|gap):\s*([^;]+);` findall. -/
def findSpacingFull (content : String) : List String :=
  scanAll (fun s =>
    match matchSemiPattern ["padding", "margin", "gap"] s with
    | some (g, rem) => some (strOf g, rem)
    | none => none) content

/-- `check_compliance.py`'s hardcoded-color findall:
`(?:color|background|bg|border):\s*(#hex|rgba?\(..\))`. -/
def findCheckColors (content : String) : List String :=
  scanAll (fun s =>
    match matchPropValue ["color", "background", "bg", "border"] colorValueCheck s with
    | some (g, rem) => some (strOf g, rem)
    | none => none) content

/-- `box-shadow:\s*([^;]+);` findall (compliance checker). -/
def findCheckShadows (content : String) : List String :=
  scanAll (fun s =>
    match matchSemiPattern ["box-shadow"] s with
    | some (g, rem) => some (strOf g, rem)
    | none => none) content

/-- `border-radius:\s*(\d+px)` findall (compliance checker). -/
def findCheckRadii (content : String) : List String :=
  scanAll (fun s =>
    match matchRadiusPx s with
    | some (g, rem) => some (strOf g, rem)
    | none => none) content

/-- `re.findall(r"import\s+.*?from\s+['\"]([^'\"]+)['\"]", content)`. -/
def findImports (content : String) : List String :=
  scanAll (fun s =>
    match matchImport s with
    | some (g, rem) => some (strOf g, rem)
    | none => none) content

/-! ## Data model -/

/-- The seven design-token categories of `analyze_project.py`. -/
inductive TokenCategory : Type
  | colors
  | shadows
  | border_radius
  | spacing
  | font_families
  | font_sizes
  | z_index
deriving DecidableEq, Repr

/-- The `design_tokens` accumulator: one Python `set` of token strings per
category, modelled as a duplicate-free list in insertion order. -/
structure DesignTokens : Type where
  colors : List String
  shadows : List String
  border_radius : List String
  spacing : List String
  font_families : List String
  font_sizes : List String
  z_index : List String
deriving DecidableEq, Repr

/-- The initial empty `design_tokens` dictionary. -/
def emptyDesignTokens : DesignTokens := ⟨[], [], [], [], [], [], []⟩

/-- Python `set.add`: insert unless already present. -/
def setAdd (l : List String) (s : String) : List String :=
  if l.contains s then l else l ++ [s]

/-- Add a token string to one category set. -/
def addTokenTo (t : DesignTokens) (c : TokenCategory) (s : String) : DesignTokens :=
  match c with
  | .colors => { t with colors := setAdd t.colors s }
  | .shadows => { t with shadows := setAdd t.shadows s }
  | .border_radius => { t with border_radius := setAdd t.border_radius s }
  | .spacing => { t with spacing := setAdd t.spacing s }
  | .font_families => { t with font_families := setAdd t.font_families s }
  | .font_sizes => { t with font_sizes := setAdd t.font_sizes s }
  | .z_index => { t with z_index := setAdd t.z_index s }

/-- One record of `component_patterns`. -/
structure ComponentPattern : Type where
  file : String
  has_typescript : Bool
  has_props_interface : Bool
  uses_hooks : Bool
  uses_children : Bool
  exports_default : Bool
  exports_named : Bool
deriving DecidableEq, Repr

/-- The `import_patterns` buckets, in the source dictionary's key order.
The Python key `alias` is a reserved word in Lean, hence the trailing
underscore. -/
structure ImportPatterns : Type where
  absolute : List String
  relative : List String
  alias_ : List String
deriving DecidableEq, Repr

/-- The empty `import_patterns` dictionary. -/
def emptyImportPatterns : ImportPatterns := ⟨[], [], []⟩

/-- The `naming_conventions` data the compliance checker and renderer read
from the persisted report. -/
structure NamingConventions : Type where
  most_common_file : Option String
deriving DecidableEq, Repr

/-- The file system seen through `Path.rglob`: for each glob extension the
ordered list of (path, decoded content) results.  Files that fail to
decode are absent (the scripts skip them via `try/except`). -/
structure FileSys : Type where
  rglob : String → List (String × String)

/-! ## analyze_project.py -/

/-- `FrontendAnalyzer._categorize_css_var`, factored to return the target
category together with the stored string `f"{var_name}: {value}"`; the
caller inserts the string into the returned category's set.  `var_name`
receives the regex's `match.group(0)` (the whole declaration). -/
def _categorize_css_var (var_name value : String) : Option (TokenCategory × String) :=
  let var_lower := pyLower var_name
  if ["color", "bg", "background", "border", "text"].any (fun k => pyIn k var_lower) then
    some (.colors, var_name ++ ": " ++ value)
  else if pyIn "shadow" var_lower then
    some (.shadows, var_name ++ ": " ++ value)
  else if pyIn "radius" var_lower then
    some (.border_radius, var_name ++ ": " ++ value)
  else if ["spacing", "gap", "padding", "margin"].any (fun k => pyIn k var_lower) then
    some (.spacing, var_name ++ ": " ++ value)
  else if pyIn "font-family" var_lower then
    some (.font_families, var_name ++ ": " ++ value)
  else if pyIn "font-size" var_lower then
    some (.font_sizes, var_name ++ ": " ++ value)
  else if pyIn "z-index" var_lower then
    some (.z_index, var_name ++ ": " ++ value)
  else none

/-- The category component of `_categorize_css_var` on its own: the
first-matching keyword search over the lowercased argument. -/
def cssVarCategory (var_name : String) : Option TokenCategory :=
  let var_lower := pyLower var_name
  if ["color", "bg", "background", "border", "text"].any (fun k => pyIn k var_lower) then
    some .colors
  else if pyIn "shadow" var_lower then some .shadows
  else if pyIn "radius" var_lower then some .border_radius
  else if ["spacing", "gap", "padding", "margin"].any (fun k => pyIn k var_lower) then
    some .spacing
  else if pyIn "font-family" var_lower then some .font_families
  else if pyIn "font-size" var_lower then some .font_sizes
  else if pyIn "z-index" var_lower then some .z_index
  else none

/-- The `--[\w-]+` name part of a matched declaration (the characters
before the first colon). -/
def cssVarName (decl : String) : String :=
  strOf (decl.data.takeWhile (fun c => !(c == ':')))

/-- Whether a whole string is one match of the CSS-variable pattern
`--[\w-]+:\s*([^;]+);`. -/
def isCssVarDecl (decl : String) : Bool :=
  match matchCssVar decl.data with
  | some ((full, _), rem) => rem.isEmpty && full == decl.data
  | none => false

/-- The per-file body of `_extract_design_tokens`'s loop: skip
`node_modules` paths, otherwise apply the five token patterns to the file
content and accumulate into the token sets. -/
def extractFileTokens (t : DesignTokens) (path content : String) : DesignTokens :=
  if pyIn "node_modules" path then t
  else
    let t1 := (findCssVars content).foldl (fun acc mg =>
      match _categorize_css_var mg.1 (pyStrip mg.2) with
      | some (c, s) => addTokenTo acc c s
      | none => acc) t
    let t2 := (findColorsFull content).foldl (fun acc v => addTokenTo acc .colors v) t1
    let t3 := (findShadowsFull content).foldl (fun acc v => addTokenTo acc .shadows v) t2
    let t4 := (findRadiiFull content).foldl (fun acc v => addTokenTo acc .border_radius v) t3
    (findSpacingFull content).foldl (fun acc v => addTokenTo acc .spacing v) t4

/-- The extension list `_extract_design_tokens` globs over. -/
def tokenExtensions : List String :=
  [".css", ".scss", ".ts", ".tsx", ".js", ".jsx", ".config.js", ".config.ts"]

/-- `FrontendAnalyzer._extract_design_tokens`. -/
def _extract_design_tokens (fs : FileSys) : DesignTokens :=
  tokenExtensions.foldl (fun t ext =>
    (fs.rglob ext).foldl (fun acc pc => extractFileTokens acc pc.1 pc.2) t)
    emptyDesignTokens

/-- The per-stem classification of `_analyze_naming_conventions`:
the label appended to `naming_conventions["files"]`, or `none` when no
branch matches (no record is appended).  `Path.stem` of an on-disk file
is never empty, so the empty-stem case (a Python `IndexError`) is
unreachable; it is mapped to `none` here. -/
def classifyFileStem (filename : String) : Option String :=
  if pyIn "-" filename then some "kebab-case"
  else if pyIn "_" filename then some "snake_case"
  else if strFirstIsUpper filename then some "PascalCase"
  else if strFirstIsLower filename && pyStrIsLower (strTail filename) then some "lowercase"
  else none

/-- Append one import target to its bucket: the body of
`_analyze_import_patterns`'s inner loop. -/
def addImportTarget (a : ImportPatterns) (imp : String) : ImportPatterns :=
  if pyStartsWith imp "@/" then { a with alias_ := a.alias_ ++ [imp] }
  else if pyStartsWith imp "." then { a with relative := a.relative ++ [imp] }
  else { a with absolute := a.absolute ++ [imp] }

/-- The extension list `_analyze_import_patterns` globs over. -/
def importExtensions : List String := [".ts", ".tsx", ".js", ".jsx"]

/-- `FrontendAnalyzer._analyze_import_patterns`: for each extension, the
first 20 `rglob` results, skipping `node_modules` paths, one regex
application per file, bucketing every target. -/
def _analyze_import_patterns (fs : FileSys) : ImportPatterns :=
  importExtensions.foldl (fun acc ext =>
    ((fs.rglob ext).take 20).foldl (fun a pc =>
      if pyIn "node_modules" pc.1 then a
      else (findImports pc.2).foldl addImportTarget a) acc)
    emptyImportPatterns

/-- The files whose contents `_analyze_import_patterns` actually scans:
the first 20 per extension, minus `node_modules` paths. -/
def sampledImportFiles (fs : FileSys) : List (String × String) :=
  importExtensions.flatMap (fun ext =>
    ((fs.rglob ext).take 20).filter (fun pc => !(pyIn "node_modules" pc.1)))

/-- All import targets the analysis collects, in collection order. -/
def importTargets (fs : FileSys) : List String :=
  (sampledImportFiles fs).flatMap (fun pc => findImports pc.2)

/-! ## check_compliance.py -/

/-- The loaded patterns JSON (`self.patterns` of `ComplianceChecker`),
restricted to the fields the checker reads.  Set-valued token fields are
already serialized to string lists at this point. -/
structure CheckerPatterns : Type where
  naming_conventions : NamingConventions
  design_tokens : DesignTokens
  component_patterns : List ComponentPattern
  import_patterns : ImportPatterns
deriving Repr

/-- The dictionary `check_component` returns: either the
`{"error": "File not found"}` result or the full report. -/
structure ComplianceReport : Type where
  file : String
  compliant : Bool
  issues : List String
  warnings : List String
  suggestions : List String
  score : Int
deriving DecidableEq, Repr

/-- Result of `check_component`. -/
inductive CheckResult : Type
  | error (msg : String)
  | ok (report : ComplianceReport)
deriving DecidableEq, Repr

/-- Issue message for a kebab-case naming violation. -/
def kebabMsg : String := "File should use kebab-case naming (project standard)"

/-- Issue message for a PascalCase naming violation. -/
def pascalMsg : String := "File should use PascalCase naming (project standard)"

/-- Issue message for a snake_case naming violation. -/
def snakeMsg : String := "File should use snake_case naming (project standard)"

/-- `ComplianceChecker._check_naming`.  An absent or empty
`most_common_file` is falsy in Python, so no check runs then. -/
def _check_naming (pat : CheckerPatterns) (filename : String) : List String :=
  match pat.naming_conventions.most_common_file with
  | none => []
  | some most_common =>
    if most_common == "" then []
    else
      let is_kebab := pyIn "-" filename
      let is_snake := pyIn "_" filename
      let is_pascal := strFirstIsUpper filename
      if most_common == "kebab-case" && !is_kebab then [kebabMsg]
      else if most_common == "PascalCase" && !is_pascal then [pascalMsg]
      else if most_common == "snake_case" && !is_snake then [snakeMsg]
      else []

/-- The comprehension `[c.split(':')[-1].strip() if ':' in c else c for c in project_tokens]`. -/
def strippedTokenValues (project_tokens : List String) : List String :=
  project_tokens.map (fun c => if pyIn ":" c then pyStrip (lastColonSeg c) else c)

/-- `ComplianceChecker._check_design_tokens`. -/
def _check_design_tokens (pat : CheckerPatterns) (content : String) : List String :=
  let hardcoded_colors := findCheckColors content
  let colorWarnings :=
    if hardcoded_colors.isEmpty then []
    else
      hardcoded_colors.filterMap (fun color =>
        if (strippedTokenValues pat.design_tokens.colors).contains color then none
        else some ("Hardcoded color " ++ apos ++ color ++ apos ++ " - consider using design token"))
  let shadowWarnings :=
    if (findCheckShadows content).isEmpty then []
    else ["Custom box-shadow detected - consider using design token"]
  let hardcoded_radius := findCheckRadii content
  let radiusWarnings :=
    if hardcoded_radius.isEmpty then []
    else
      hardcoded_radius.filterMap (fun radius =>
        if (strippedTokenValues pat.design_tokens.border_radius).contains radius then none
        else some ("Custom border-radius " ++ apos ++ radius ++ apos ++ " - consider using design token"))
  colorWarnings ++ shadowWarnings ++ radiusWarnings

/-- `ComplianceChecker._check_component_structure`.  The Python float
comparison `count / total > 0.7` coincides with the exact rational
comparison `10 * count > 7 * total` for every count and total arising
here (sample sizes are small and the quotient is never within a float
ulp of 0.7 except at exactly 7/10, where both sides agree). -/
def _check_component_structure (pat : CheckerPatterns) (content : String)
    (file_extension : String) : List String :=
  if pat.component_patterns.isEmpty then []
  else
    let common_patterns := pat.component_patterns
    let total := common_patterns.length
    let tsSugg :=
      if 10 * (common_patterns.countP (fun p => p.has_typescript)) > 7 * total
          && !([".tsx", ".ts"].contains file_extension) then
        ["Most components use TypeScript - consider using .tsx/.ts"]
      else []
    let propsSugg :=
      if 10 * (common_patterns.countP (fun p => p.has_props_interface)) > 7 * total
          && !(pyIn "interface Props" content || pyIn "type Props" content) then
        ["Most components define Props interface/type - consider adding one"]
      else []
    let defaultSugg :=
      if 10 * (common_patterns.countP (fun p => p.exports_default)) > 7 * total
          && !(pyIn "export default" content) then
        ["Most components use default export"]
      else []
    tsSugg ++ propsSugg ++ defaultSugg

/-- `ComplianceChecker._check_imports`. -/
def _check_imports (pat : CheckerPatterns) (content : String) : List String :=
  let import_lines := findImports content
  let alias_count := import_lines.countP (fun imp => pyStartsWith imp "@/")
  let relative_count := import_lines.countP (fun imp => pyStartsWith imp ".")
  let project_alias := pat.import_patterns.alias_.length
  let project_relative := pat.import_patterns.relative.length
  if project_alias > project_relative && relative_count > alias_count then
    ["Project prefers path aliases (@/) over relative imports"]
  else if project_relative > project_alias && alias_count > relative_count then
    ["Project prefers relative imports over path aliases"]
  else []

/-- `ComplianceChecker._calculate_score`: start at 100, subtract 20 per
issue, 10 per warning, 5 per suggestion, floor at 0 (Python ints are
unbounded, so plain `Int` arithmetic). -/
def _calculate_score (issues warnings suggestions : List String) : Int :=
  max 0 (100 - (issues.length : Int) * 20 - (warnings.length : Int) * 10
    - (suggestions.length : Int) * 5)

/-- `ComplianceChecker.check_component`.  The candidate file system is a
map from path to decoded content (`none` = the `Path.exists()` test
fails).  Printing is side-effect only and dropped. -/
def check_component (pat : CheckerPatterns) (fsp : String → Option String)
    (component_path : String) : CheckResult :=
  match fsp component_path with
  | none => .error "File not found"
  | some content =>
    let filename := pathStem component_path
    let issues := _check_naming pat filename
    let warnings := _check_design_tokens pat content
    let suggestions := _check_component_structure pat content (pathSuffix component_path)
      ++ _check_imports pat content
    .ok
      { file := component_path
        compliant := issues.length == 0
        issues := issues
        warnings := warnings
        suggestions := suggestions
        score := _calculate_score issues warnings suggestions }

/-! ## generate_report.py -/

/-- The deserialized analysis JSON as the renderer reads it (set-valued
token fields already sorted string lists; `folder_structure` keeps the
JSON object's insertion order as an association list). -/
structure AnalysisReport : Type where
  design_tokens : DesignTokens
  folder_structure : List (String × List String)
  component_patterns : List ComponentPattern
  naming_conventions : NamingConventions
  import_patterns : ImportPatterns
deriving Repr

/-- Python `"{:.0f}".format(100 * count / total)`: round half to even.
For every count/total the scripts produce, the IEEE-double value of
`count / total * 100` rounds to the same integer as the exact rational,
so the rational computation is used. -/
def percentStr (count total : Nat) : String :=
  let n := 100 * count
  let d := n / total
  let r := n % total
  toString (if 2 * r < total then d
    else if total < 2 * r then d + 1
    else if d % 2 == 0 then d else d + 1)

/-- One token-category block of the report: heading, fenced list capped
at `limit` entries with a `... and N more` line when truncated; empty
categories produce no block (Python list truthiness). -/
def tokenCategorySection (title : String) (items : List String) (limit : Nat) : List String :=
  if items.isEmpty then []
  else
    ["### " ++ title, "```css"]
    ++ items.take limit
    ++ (if limit < items.length then ["... and " ++ toString (items.length - limit) ++ " more"]
        else [])
    ++ ["```\n"]

/-- The folder-structure section body. -/
def folderStructureSection (folders : List (String × List String)) : List String :=
  if folders.isEmpty then ["*No specific folder patterns detected*\n"]
  else
    folders.flatMap (fun ftp =>
      ["### " ++ pyTitle ftp.1]
      ++ (ftp.2.take 5).map (fun p => "- `" ++ p ++ "`")
      ++ (if 5 < ftp.2.length then ["- ... and " ++ toString (ftp.2.length - 5) ++ " more"]
          else [])
      ++ [""])

/-- The component-pattern statistics section body. -/
def componentPatternsSection (patterns : List ComponentPattern) : List String :=
  if patterns.isEmpty then ["*No component patterns analyzed*\n"]
  else
    let total := patterns.length
    let ts_count := patterns.countP (fun p => p.has_typescript)
    let props_count := patterns.countP (fun p => p.has_props_interface)
    let hooks_count := patterns.countP (fun p => p.uses_hooks)
    let default_export := patterns.countP (fun p => p.exports_default)
    ["Analyzed " ++ toString total ++ " components:\n",
     "- **TypeScript usage:** " ++ toString ts_count ++ "/" ++ toString total
       ++ " (" ++ percentStr ts_count total ++ "%)",
     "- **Props interface defined:** " ++ toString props_count ++ "/" ++ toString total
       ++ " (" ++ percentStr props_count total ++ "%)",
     "- **Using React hooks:** " ++ toString hooks_count ++ "/" ++ toString total
       ++ " (" ++ percentStr hooks_count total ++ "%)",
     "- **Default exports:** " ++ toString default_export ++ "/" ++ toString total
       ++ " (" ++ percentStr default_export total ++ "%)",
     ""]

/-- The naming-conventions section body (Python string truthiness: an
empty `most_common_file` counts as absent). -/
def namingSection (most_common : Option String) : List String :=
  match most_common with
  | some m => if m == "" then ["*No clear naming pattern detected*\n"]
      else ["**Preferred file naming:** `" ++ m ++ "`\n"]
  | none => ["*No clear naming pattern detected*\n"]

/-- The import-patterns section body. -/
def importSection (imports : ImportPatterns) : List String :=
  let alias_count := imports.alias_.length
  let relative_count := imports.relative.length
  let absolute_count := imports.absolute.length
  let total_imports := alias_count + relative_count + absolute_count
  if 0 < total_imports then
    ["- **Path aliases (@/):** " ++ toString alias_count
       ++ " (" ++ percentStr alias_count total_imports ++ "%)",
     "- **Relative imports (./):** " ++ toString relative_count
       ++ " (" ++ percentStr relative_count total_imports ++ "%)",
     "- **Absolute imports:** " ++ toString absolute_count
       ++ " (" ++ percentStr absolute_count total_imports ++ "%)",
     ""]
    ++ (if relative_count < alias_count then
          ["**Recommendation:** Project prefers path aliases (@/)\n"]
        else if alias_count < relative_count then
          ["**Recommendation:** Project prefers relative imports\n"]
        else [])
  else ["*No import patterns detected*\n"]

/-- The `md_content` line list built by `generate_markdown_report`.  The
wall-clock timestamp `datetime.now().strftime(...)` is an explicit input. -/
def generate_markdown_lines (data : AnalysisReport) (now : String) : List String :=
  ["# Frontend Project Pattern Analysis",
   "\n**Generated:** " ++ now ++ "\n",
   "---\n",
   "## 🎨 Design Tokens\n"]
  ++ tokenCategorySection "Colors" data.design_tokens.colors 15
  ++ tokenCategorySection "Box Shadows" data.design_tokens.shadows 10
  ++ tokenCategorySection "Border Radius" data.design_tokens.border_radius 10
  ++ tokenCategorySection "Spacing" data.design_tokens.spacing 10
  ++ ["## 📁 Folder Structure\n"]
  ++ folderStructureSection data.folder_structure
  ++ ["## 🧩 Component Patterns\n"]
  ++ componentPatternsSection data.component_patterns
  ++ ["## 📝 Naming Conventions\n"]
  ++ namingSection data.naming_conventions.most_common_file
  ++ ["## 📦 Import Patterns\n"]
  ++ importSection data.import_patterns

/-- `generate_markdown_report`: the text document written to the output
file, `"\n".join(md_content)`. -/
def generate_markdown_report (data : AnalysisReport) (now : String) : String :=
  String.intercalate "\n" (generate_markdown_lines data now)

/-! ## Concrete instances used by witnesses and counterexamples -/

/-- A report with no tokens, folders, components, naming data or imports. -/
def emptyReport : AnalysisReport :=
  { design_tokens := emptyDesignTokens
    folder_structure := []
    component_patterns := []
    naming_conventions := ⟨none⟩
    import_patterns := emptyImportPatterns }

/-- A patterns file with the given naming verdict and nothing else. -/
def patWith (mc : Option String) : CheckerPatterns :=
  { naming_conventions := ⟨mc⟩
    design_tokens := emptyDesignTokens
    component_patterns := []
    import_patterns := emptyImportPatterns }

/-- An entirely empty patterns file. -/
def pat0 : CheckerPatterns := patWith none

/-- A one-file candidate file system: `a.tsx` exists and is empty. -/
def fs0 : String → Option String := fun p => if p == "a.tsx" then some "" else none

/-- A file system with no files at all. -/
def fsNone : String → Option String := fun _ => none

/-- The report `check_component pat0 fs0 "a.tsx"` produces. -/
def rpt0 : ComplianceReport :=
  { file := "a.tsx", compliant := true, issues := [], warnings := [], suggestions := []
    score := 100 }

/-- A candidate file system holding the PascalCase file `MyWidget.tsx`. -/
def fsC5 : String → Option String :=
  fun p => if p == "MyWidget.tsx" then some "export default MyWidget" else none

/-- Token extraction seeing a single stylesheet under `dist/`. -/
def fsDist : FileSys :=
  ⟨fun ext => if ext == ".css" then [("dist/a.css", "--primary-color: #336699;")] else []⟩

/-- Token extraction seeing no files. -/
def fsEmpty : FileSys := ⟨fun _ => []⟩

/-- Twenty `.ts` rglob results, each with one absolute import target. -/
def tsFiles : List (String × String) :=
  List.replicate 20 ("src/f.ts", "import x from \"pkg\"")

/-- Five `.tsx` rglob results, each with one absolute import target. -/
def tsxFiles : List (String × String) :=
  List.replicate 5 ("src/g.tsx", "import x from \"pkg\"")

/-- A project with 25 script/component files across two extensions. -/
def fsC7 : FileSys :=
  ⟨fun ext => if ext == ".ts" then tsFiles else if ext == ".tsx" then tsxFiles else []⟩

/-! ## Theorems -/

theorem calculate_score_eq (issues warnings suggestions : List String) :
    _calculate_score issues warnings suggestions
      = max 0 (100 - 20 * (issues.length : Int) - 10 * (warnings.length : Int)
          - 5 * (suggestions.length : Int)) := by
  unfold _calculate_score
  ring_nf

theorem calculate_score_nonneg (issues warnings suggestions : List String) :
    0 ≤ _calculate_score issues warnings suggestions :=
  le_max_left 0 _

theorem calculate_score_le (issues warnings suggestions : List String) :
    _calculate_score issues warnings suggestions ≤ 100 := by
  unfold _calculate_score
  apply max_le (by norm_num)
  have h1 : (0 : Int) ≤ (issues.length : Int) := Int.natCast_nonneg _
  have h2 : (0 : Int) ≤ (warnings.length : Int) := Int.natCast_nonneg _
  have h3 : (0 : Int) ≤ (suggestions.length : Int) := Int.natCast_nonneg _
  omega

/-- C1: every compliance check's returned score is
`max 0 (100 - 20*issues - 10*warnings - 5*suggestions)`, an integer in
`[0, 100]`; in particular 1 issue, 2 warnings and 1 suggestion score 55. -/
theorem c1_score_formula_and_bounds (pat : CheckerPatterns)
    (fsp : String → Option String) (path : String) (r : ComplianceReport)
    (issues warnings suggestions : List String) :
    (check_component pat fsp path = .ok r →
      r.score = max 0 (100 - 20 * (r.issues.length : Int) - 10 * (r.warnings.length : Int)
          - 5 * (r.suggestions.length : Int)) ∧ 0 ≤ r.score ∧ r.score ≤ 100) ∧
    _calculate_score issues warnings suggestions
      = max 0 (100 - 20 * (issues.length : Int) - 10 * (warnings.length : Int)
          - 5 * (suggestions.length : Int)) ∧
    _calculate_score ["i1"] ["w1", "w2"] ["s1"] = 55 := by
  refine ⟨?_, calculate_score_eq _ _ _, by decide⟩
  intro h
  cases hf : fsp path with
  | none => simp [check_component, hf] at h
  | some content =>
    simp only [check_component, hf] at h
    cases h
    exact ⟨calculate_score_eq _ _ _, calculate_score_nonneg _ _ _, calculate_score_le _ _ _⟩

/-- Witness for C1 at a concrete patterns file, file system and path. -/
theorem c1_score_witness :
    rpt0.score = max 0 (100 - 20 * (rpt0.issues.length : Int)
      - 10 * (rpt0.warnings.length : Int) - 5 * (rpt0.suggestions.length : Int))
    ∧ 0 ≤ rpt0.score ∧ rpt0.score ≤ 100 :=
  (c1_score_formula_and_bounds pat0 fs0 "a.tsx" rpt0 [] [] []).1 (by decide)

theorem tsLine_inj (t1 t2 : String)
    (h : "\n**Generated:** " ++ t1 ++ "\n" = "\n**Generated:** " ++ t2 ++ "\n") :
    t1 = t2 := by
  have hd : ("\n**Generated:** " ++ t1 ++ "\n").data
      = ("\n**Generated:** " ++ t2 ++ "\n").data := congrArg String.data h
  simp only [String.data_append, List.append_assoc] at hd
  apply String.ext
  have h1 := List.append_cancel_left hd
  exact List.append_cancel_right h1

/-- C2 counterexample: on the very same (empty) report, two renderer runs
with different wall-clock timestamps produce different text documents. -/
theorem c2_timestamp_counterexample :
    generate_markdown_report emptyReport "2024-01-01 00:00:00"
      ≠ generate_markdown_report emptyReport "2024-01-01 00:00:01" := by
  decide

/-- C2 (amended): the Renderer is a pure function of the AnalysisReport
together with the generation timestamp it embeds in the header — for a
fixed report, two runs yield the same line list exactly when their
timestamps agree. -/
theorem c2_renderer_deterministic_given_timestamp (data : AnalysisReport) (t1 t2 : String) :
    generate_markdown_lines data t1 = generate_markdown_lines data t2 ↔ t1 = t2 := by
  constructor
  · intro h
    unfold generate_markdown_lines at h
    simp only [List.cons_append, List.cons.injEq] at h
    exact tsLine_inj t1 t2 h.2.1
  · intro h
    rw [h]

/-- C3 counterexample: two declarations, both full matches of the
CSS-variable pattern with the same declaration name `--myvar`, are
classified into different categories (the first lands in `colors`
because its *value* contains the keyword `background`; the second is
dropped), so the stored category is not a function of the name alone. -/
theorem c3_same_name_different_category :
    isCssVarDecl "--myvar: background;" = true
    ∧ isCssVarDecl "--myvar: 4;" = true
    ∧ cssVarName "--myvar: background;" = cssVarName "--myvar: 4;"
    ∧ findCssVars "--myvar: background;" = [("--myvar: background;", "background")]
    ∧ findCssVars "--myvar: 4;" = [("--myvar: 4;", "4")]
    ∧ (_categorize_css_var "--myvar: background;" "background").map Prod.fst
        = some TokenCategory.colors
    ∧ (_categorize_css_var "--myvar: 4;" "4").map Prod.fst = none := by
  decide

/-- C3 (amended): the category a matched declaration is stored under is a
pure function of the *full matched declaration text* (name and value
together), decided by the mutually exclusive first-matching keyword
search `cssVarCategory` over the lowercased declaration; the stored
token string is the full matched declaration followed by `": "` and the
(stripped) value argument. -/
theorem c3_categorization_factors (var_name value : String) :
    _categorize_css_var var_name value
      = (cssVarCategory var_name).map (fun c => (c, var_name ++ ": " ++ value)) := by
  simp only [_categorize_css_var, cssVarCategory]
  split_ifs <;> rfl

/-- C4 counterexample: a stylesheet under `dist/` — a path containing the
skip-list substring `dist` — is *not* skipped by token extraction: the
resulting design-token set differs from the one produced when the file is
absent (only `node_modules` is tested in `_extract_design_tokens`). -/
theorem c4_dist_not_skipped :
    pyIn "dist" "dist/a.css" = true
    ∧ _extract_design_tokens fsDist ≠ _extract_design_tokens fsEmpty
    ∧ (_extract_design_tokens fsDist).colors
        = ["--primary-color: #336699;: #336699", "#336699"] := by
  decide

/-- C4 (amended): during design-token extraction only files whose path
contains `node_modules` are skipped; such a file never changes the
accumulated token set.  The five-substring skip list
(`node_modules`, `.git`, `dist`, `build`, `.next`) is applied in
folder-structure analysis, not here. -/
theorem c4_node_modules_skipped (t : DesignTokens) (path content : String)
    (h : pyIn "node_modules" path = true) :
    extractFileTokens t path content = t := by
  unfold extractFileTokens
  rw [h]
  rfl

/-- Witness for C4 at a concrete token state, path and content. -/
theorem c4_skip_witness :
    extractFileTokens emptyDesignTokens "node_modules/a.css" "--primary-color: #336699;"
      = emptyDesignTokens :=
  c4_node_modules_skipped emptyDesignTokens "node_modules/a.css" "--primary-color: #336699;"
    (by decide)

/-- C5 counterexample: with verdict `PascalCase` and candidate stem
`My-Widget`, the Inferrer's four-way precedence test classifies the stem
as `kebab-case` — different from the verdict — yet `_check_naming` emits
no issue at all (it only tests `filename[0].isupper()`), so the check is
not the claimed precedence-classification comparison. -/
theorem c5_flag_not_precedence :
    (patWith (some "PascalCase")).naming_conventions.most_common_file = some "PascalCase"
    ∧ _check_naming (patWith (some "PascalCase")) "My-Widget" = []
    ∧ classifyFileStem "My-Widget" = some "kebab-case"
    ∧ some "kebab-case" ≠ some "PascalCase" := by
  decide

/-- C5 (amended): the naming check runs only for the three verdicts
kebab-case, PascalCase and snake_case (an absent verdict or the fourth
Inferrer label `lowercase` yields no issues); it then emits exactly one
issue iff the corresponding *independent flag test* fails — hyphen
present for kebab-case, first character uppercase for PascalCase,
underscore present for snake_case — not the Inferrer's four-way
precedence classification.  With verdict kebab-case and stem `MyWidget`,
exactly one issue is reported, and via `check_component` on
`MyWidget.tsx` the result is non-compliant. -/
theorem c5_naming_check_behavior (fn : String) :
    _check_naming (patWith none) fn = []
    ∧ _check_naming (patWith (some "lowercase")) fn = []
    ∧ _check_naming (patWith (some "kebab-case")) fn
        = (if pyIn "-" fn then [] else [kebabMsg])
    ∧ _check_naming (patWith (some "PascalCase")) fn
        = (if strFirstIsUpper fn then [] else [pascalMsg])
    ∧ _check_naming (patWith (some "snake_case")) fn
        = (if pyIn "_" fn then [] else [snakeMsg])
    ∧ _check_naming (patWith (some "kebab-case")) "MyWidget" = [kebabMsg]
    ∧ check_component (patWith (some "kebab-case")) fsC5 "MyWidget.tsx"
        = .ok { file := "MyWidget.tsx", compliant := false, issues := [kebabMsg]
                warnings := [], suggestions := [], score := 80 } := by
  refine ⟨rfl, rfl, ?_, ?_, ?_, by decide, by decide⟩
  · simp only [_check_naming, patWith]
    cases h : pyIn "-" fn <;> simp [h]
  · simp only [_check_naming, patWith]
    cases h : strFirstIsUpper fn <;> simp [h]
  · simp only [_check_naming, patWith]
    cases h : pyIn "_" fn <;> simp [h]

/-- C6: the Inferrer's per-stem label follows the fixed precedence —
hyphen → kebab-case; else underscore → snake_case; else first character
uppercase → PascalCase; else first character lowercase and remainder
lowercase (Python `str.islower`) → lowercase — and when no branch
matches, as for the stem `myComponent`, no record is appended (`none`). -/
theorem c6_classification_precedence (stem : String) :
    (classifyFileStem stem = some "kebab-case" ↔ pyIn "-" stem = true)
    ∧ (classifyFileStem stem = some "snake_case"
        ↔ (pyIn "-" stem = false ∧ pyIn "_" stem = true))
    ∧ (classifyFileStem stem = some "PascalCase"
        ↔ (pyIn "-" stem = false ∧ pyIn "_" stem = false ∧ strFirstIsUpper stem = true))
    ∧ (classifyFileStem stem = some "lowercase"
        ↔ (pyIn "-" stem = false ∧ pyIn "_" stem = false ∧ strFirstIsUpper stem = false
            ∧ (strFirstIsLower stem && pyStrIsLower (strTail stem)) = true))
    ∧ (classifyFileStem stem = none
        ↔ (pyIn "-" stem = false ∧ pyIn "_" stem = false ∧ strFirstIsUpper stem = false
            ∧ (strFirstIsLower stem && pyStrIsLower (strTail stem)) = false))
    ∧ classifyFileStem "myComponent" = none
    ∧ classifyFileStem "my-component" = some "kebab-case"
    ∧ classifyFileStem "my_component" = some "snake_case"
    ∧ classifyFileStem "MyComponent" = some "PascalCase" := by
  refine ⟨?_, ?_, ?_, ?_, ?_, by decide, by decide, by decide, by decide⟩ <;>
    simp only [classifyFileStem] <;> split_ifs <;> simp_all

theorem analyze_inner_foldl (files : List (String × String)) (acc : ImportPatterns) :
    files.foldl (fun a pc =>
        if pyIn "node_modules" pc.1 then a
        else (findImports pc.2).foldl addImportTarget a) acc
      = ((files.filter (fun pc => !(pyIn "node_modules" pc.1))).flatMap
          (fun pc => findImports pc.2)).foldl addImportTarget acc := by
  induction files generalizing acc with
  | nil => rfl
  | cons pc rest ih =>
    cases h : pyIn "node_modules" pc.1 <;>
      simp [h, List.filter_cons, ih, List.foldl_append]

theorem analyze_eq_targets_foldl (fs : FileSys) :
    _analyze_import_patterns fs
      = (importTargets fs).foldl addImportTarget emptyImportPatterns := by
  unfold _analyze_import_patterns importTargets sampledImportFiles importExtensions
  simp only [List.foldl_cons, List.foldl_nil, List.flatMap_cons, List.flatMap_nil,
    List.flatMap_append, List.foldl_append, analyze_inner_foldl, List.append_nil]

theorem bucket_foldl (imps : List String) (acc : ImportPatterns) :
    imps.foldl addImportTarget acc
      = { absolute := acc.absolute
            ++ imps.filter (fun i => !pyStartsWith i "@/" && !pyStartsWith i ".")
          relative := acc.relative
            ++ imps.filter (fun i => !pyStartsWith i "@/" && pyStartsWith i ".")
          alias_ := acc.alias_ ++ imps.filter (fun i => pyStartsWith i "@/") } := by
  induction imps generalizing acc with
  | nil => simp
  | cons i rest ih =>
    cases h1 : pyStartsWith i "@/" <;> cases h2 : pyStartsWith i "." <;>
      simp [addImportTarget, h1, h2, ih, List.filter_cons]

theorem filter_three_length (imps : List String) :
    (imps.filter (fun i => pyStartsWith i "@/")).length
      + (imps.filter (fun i => !pyStartsWith i "@/" && pyStartsWith i ".")).length
      + (imps.filter (fun i => !pyStartsWith i "@/" && !pyStartsWith i ".")).length
      = imps.length := by
  induction imps with
  | nil => rfl
  | cons i rest ih =>
    cases h1 : pyStartsWith i "@/" <;> cases h2 : pyStartsWith i "." <;>
      simp [List.filter_cons, h1, h2] <;> omega

/-- C7 counterexample: with twenty `.ts` files and five `.tsx` files,
the import analysis samples 25 files — more than the claimed combined
cap of 20 — and collects all 25 files' import targets. -/
theorem c7_cap_per_extension_counterexample :
    20 < (sampledImportFiles fsC7).length
    ∧ (_analyze_import_patterns fsC7).absolute.length = 25 := by
  decide

/-- C7 (amended): the `[:20]` cap of import-pattern analysis is applied
per extension, not to the combined sample: at most the first 20 `rglob`
results of each of `.ts`, `.tsx`, `.js`, `.jsx` (so up to 80 files
combined, `node_modules` paths excluded after slicing) are scanned, one
regex application per sampled file, and the analysis equals bucketing the
targets those files produce. -/
theorem c7_sample_cap_per_extension (fs : FileSys) :
    (sampledImportFiles fs).length ≤ 80
    ∧ _analyze_import_patterns fs
        = (importTargets fs).foldl addImportTarget emptyImportPatterns := by
  refine ⟨?_, analyze_eq_targets_foldl fs⟩
  have hb : ∀ e, (((fs.rglob e).take 20).filter
      (fun pc => !(pyIn "node_modules" pc.1))).length ≤ 20 := by
    intro e
    calc (((fs.rglob e).take 20).filter (fun pc => !(pyIn "node_modules" pc.1))).length
        ≤ ((fs.rglob e).take 20).length := List.length_filter_le _ _
      _ ≤ 20 := List.length_take_le 20 (fs.rglob e)
  have h1 := hb ".ts"
  have h2 := hb ".tsx"
  have h3 := hb ".js"
  have h4 := hb ".jsx"
  simp only [sampledImportFiles, importExtensions, List.flatMap_cons, List.flatMap_nil,
    List.length_append, List.append_nil]
  omega

/-- C10: every collected import target lands in exactly one bucket —
`alias` iff it starts with `@/`, else `relative` iff it starts with `.`,
else `absolute` — so the three bucket sizes sum to the number of matched
targets; a scoped package such as `@scope/pkg` is bucketed as absolute,
never alias. -/
theorem c10_import_bucketing (fs : FileSys) :
    (_analyze_import_patterns fs).alias_
        = (importTargets fs).filter (fun i => pyStartsWith i "@/")
    ∧ (_analyze_import_patterns fs).relative
        = (importTargets fs).filter (fun i => !pyStartsWith i "@/" && pyStartsWith i ".")
    ∧ (_analyze_import_patterns fs).absolute
        = (importTargets fs).filter (fun i => !pyStartsWith i "@/" && !pyStartsWith i ".")
    ∧ (_analyze_import_patterns fs).alias_.length
        + (_analyze_import_patterns fs).relative.length
        + (_analyze_import_patterns fs).absolute.length
        = (importTargets fs).length
    ∧ addImportTarget emptyImportPatterns "@scope/pkg"
        = { absolute := ["@scope/pkg"], relative := [], alias_ := [] } := by
  rw [analyze_eq_targets_foldl fs, bucket_foldl]
  refine ⟨rfl, rfl, rfl, ?_, by decide⟩
  have h := filter_three_length (importTargets fs)
  simp only [emptyImportPatterns, List.nil_append, List.length_nil]
  omega

/-- C8: when the candidate path does not exist, `check_component` returns
the structured `File not found` error result instead of raising, and none
of the naming/token/structure/import checks contribute to a report. -/
theorem c8_missing_file_error (pat : CheckerPatterns) (fsp : String → Option String)
    (path : String) (h : fsp path = none) :
    check_component pat fsp path = .error "File not found" := by
  unfold check_component
  rw [h]

/-- Witness for C8 at a concrete patterns file and an absent path. -/
theorem c8_missing_file_witness :
    check_component pat0 fsNone "missing.tsx" = .error "File not found" :=
  c8_missing_file_error pat0 fsNone "missing.tsx" rfl

/-- C9: for every report `check_component` returns, the `compliant` flag
is true exactly when the issues list is empty, regardless of how many
warnings and suggestions were produced. -/
theorem c9_compliant_iff_no_issues (pat : CheckerPatterns) (fsp : String → Option String)
    (path : String) (r : ComplianceReport) (h : check_component pat fsp path = .ok r) :
    r.compliant = true ↔ r.issues = [] := by
  cases hf : fsp path with
  | none => simp [check_component, hf] at h
  | some content =>
    simp only [check_component, hf] at h
    cases h
    simp [List.length_eq_zero]

/-- Witness for C9 at a concrete patterns file, file system and path. -/
theorem c9_compliant_witness : rpt0.compliant = true ↔ rpt0.issues = [] :=
  c9_compliant_iff_no_issues pat0 fs0 "a.tsx" rpt0 (by decide)
